import Mathlib

/-!
Shallow embedding of `src/bot-lib/strategies/bet-strategy.module.js`
(Pancakeswap-Prediction-Bot).

The module exposes three strategy procedures (`betDownStrategy`,
`betUpStrategy`, `claimStrategy`) and one receipt normalizer
(`parseTransactionReceipt`).  External collaborators — the unit formatter,
fiat/crypto converters, the smart-contract client, the history store and the
simulated-wallet ledger — live in other modules of the repository and are kept
abstract here: they are fields of a `Collab` record, with fallible async calls
returning `Except Err`.

JS numbers are modelled as rationals (ℚ), the receipt status as a natural
number, and the `ethers.BigNumber` round epoch as a rational.  Each strategy
invocation threads an explicit `RunState` holding the simulated balance and a
trace of collaborator invocations (`Event` list), appended at the moment the
collaborator is called; a rejected collaborator call makes the strategy return
`Except.error` while keeping the state mutations already performed, which is
exactly the semantics of an uncaught rejection in the JS `async` functions.
-/

/-- Errors thrown/rejected by collaborators are opaque values; a numeric code
suffices for the embedding. -/
abbrev Err := Nat

/-- The two bet-direction tags `BET_DOWN` / `BET_UP`.
Modelled from the spec: `bot.constants` is not under `src/`; the spec treats the
tags as opaque, mutually distinct direction markers. -/
inductive BetDir where
  | down
  | up
  deriving DecidableEq

/-- Constant `BET_DOWN` imported from `bot.constants`. -/
def BET_DOWN : BetDir := BetDir.down

/-- Constant `BET_UP` imported from `bot.constants`. -/
def BET_UP : BetDir := BetDir.up

/-- A raw transaction receipt, as consumed by `parseTransactionReceipt`:
`\x7b status, gasUsed, effectiveGasPrice, transactionExeption \x7d` (the field
name keeps the source's spelling).  On the exception shape the gas fields are
unreliable; here they simply carry arbitrary values. -/
structure TxReceipt where
  status : Nat
  gasUsed : ℚ
  effectiveGasPrice : ℚ
  transactionExeption : Bool
  deriving DecidableEq

/-- The normalized outcome returned by `parseTransactionReceipt`. -/
structure TxOutcome where
  betExecuted : Bool
  txGasFee : ℚ
  deriving DecidableEq

/-- Result of `claimStrategy` / of the `claimRewards` collaborator.  The
sentinel object literal in the source has no `transactionExeption` property, so
the field is an `Option` (`none` = property absent). -/
structure ClaimTx where
  status : Nat
  txGasFee : ℚ
  transactionExeption : Option Bool
  deriving DecidableEq

/-- One row passed to `saveRoundInHistory`. -/
structure BetRecord where
  round : ℚ
  betAmount : ℚ
  bet : BetDir
  betExecuted : Bool
  txGasFee : ℚ
  deriving DecidableEq

/-- Trace of collaborator invocations performed by a strategy run.  An event is
recorded at the moment the collaborator is invoked, before its result (or
rejection) is observed. -/
inductive Event where
  | contractBetDown (amount : ℚ) (epoch : ℚ)
  | contractBetUp (amount : ℚ) (epoch : ℚ)
  | contractIsClaimable (epoch : ℚ)
  | contractClaim (epochs : List ℚ)
  | balanceRead (value : ℚ)
  | balanceWrite (value : ℚ)
  | historyAppend (records : List BetRecord)
  deriving DecidableEq

/-- Mutable world visible to a strategy invocation: the simulated wallet
balance (owned by `wallet.module`) and the invocation trace. -/
structure RunState where
  simulationBalance : ℚ
  events : List Event
  deriving DecidableEq

/-- The external collaborators of `bet-strategy.module.js`, at their interface
boundary: unit formatter and converters from `utils.module`, configuration
flags from `GLOBAL_CONFIG`, contract client from
`pcs-prediction-smart-contract.module`, history store from `history.module`.
Async collaborators may reject (`Except.error`). -/
structure Collab where
  formatUnit : ℚ → Option Nat → ℚ
  parseFromUsdToCrypto : ℚ → ℚ
  parseFeeFromCryptoToUsd : ℚ → ℚ
  getBetAmount : ℚ
  SIMULATION_MODE : Bool
  CLAIM_REWARDS : Bool
  betDown : ℚ → ℚ → Except Err TxReceipt
  betUp : ℚ → ℚ → Except Err TxReceipt
  isClaimableRound : ℚ → Except Err Bool
  claimRewards : List ℚ → Except Err ClaimTx
  saveRoundInHistory : List BetRecord → Except Err Unit

/-- Embedding of `parseTransactionReceipt` (bet-strategy.module.js, lines
73-83), parameterized by the external `formatUnit` collaborator.  `none` is the
one-argument call `formatUnit(x)`; `some 18` is `formatUnit(x, "18")`. -/
def parseTransactionReceipt (formatUnit : ℚ → Option Nat → ℚ)
    (txReceipt : TxReceipt) : TxOutcome :=
  let betExecuted := txReceipt.status == 1
  if txReceipt.transactionExeption then
    { betExecuted := betExecuted, txGasFee := 0 }
  else
    let gasUsed := formatUnit txReceipt.gasUsed none
    let effectiveGasPrice := formatUnit txReceipt.effectiveGasPrice none
    let txGasFee := formatUnit (gasUsed * effectiveGasPrice) (some 18)
    { betExecuted := txReceipt.status == 1, txGasFee := txGasFee }

/-- Embedding of `betDownStrategy` (bet-strategy.module.js, lines 22-30).
The final state is paired outside the history match because the balance
mutation and the history invocation have already happened when the awaited
`saveRoundInHistory` promise settles; its rejection only decides the returned
value. -/
def betDownStrategy (c : Collab) (epoch : ℚ) (s : RunState) :
    Except Err Bool × RunState :=
  let cryptoBetAmount := c.parseFromUsdToCrypto c.getBetAmount
  let s1 : RunState :=
    { s with events := s.events ++ [Event.contractBetDown cryptoBetAmount epoch] }
  match c.betDown cryptoBetAmount epoch with
  | Except.error e => (Except.error e, s1)
  | Except.ok receipt =>
    let transaction := parseTransactionReceipt c.formatUnit receipt
    let s2 : RunState :=
      if c.SIMULATION_MODE then
        let newBalance := s1.simulationBalance - c.getBetAmount -
          c.parseFeeFromCryptoToUsd transaction.txGasFee
        { simulationBalance := newBalance,
          events := s1.events ++
            [Event.balanceRead s1.simulationBalance, Event.balanceWrite newBalance] }
      else s1
    let record : BetRecord :=
      { round := c.formatUnit epoch none, betAmount := cryptoBetAmount,
        bet := BET_DOWN, betExecuted := transaction.betExecuted,
        txGasFee := transaction.txGasFee }
    let s3 : RunState := { s2 with events := s2.events ++ [Event.historyAppend [record]] }
    ((c.saveRoundInHistory [record]).map (fun _ => transaction.betExecuted), s3)

/-- Embedding of `betUpStrategy` (bet-strategy.module.js, lines 40-48). -/
def betUpStrategy (c : Collab) (epoch : ℚ) (s : RunState) :
    Except Err Bool × RunState :=
  let cryptoBetAmount := c.parseFromUsdToCrypto c.getBetAmount
  let s1 : RunState :=
    { s with events := s.events ++ [Event.contractBetUp cryptoBetAmount epoch] }
  match c.betUp cryptoBetAmount epoch with
  | Except.error e => (Except.error e, s1)
  | Except.ok receipt =>
    let transaction := parseTransactionReceipt c.formatUnit receipt
    let s2 : RunState :=
      if c.SIMULATION_MODE then
        let newBalance := s1.simulationBalance - c.getBetAmount -
          c.parseFeeFromCryptoToUsd transaction.txGasFee
        { simulationBalance := newBalance,
          events := s1.events ++
            [Event.balanceRead s1.simulationBalance, Event.balanceWrite newBalance] }
      else s1
    let record : BetRecord :=
      { round := c.formatUnit epoch none, betAmount := cryptoBetAmount,
        bet := BET_UP, betExecuted := transaction.betExecuted,
        txGasFee := transaction.txGasFee }
    let s3 : RunState := { s2 with events := s2.events ++ [Event.historyAppend [record]] }
    ((c.saveRoundInHistory [record]).map (fun _ => transaction.betExecuted), s3)

/-- Embedding of `claimStrategy` (bet-strategy.module.js, lines 58-64).  The
source condition `GLOBAL_CONFIG.CLAIM_REWARDS && await isClaimableRound(epoch)`
short-circuits: the claimability collaborator is only invoked when the flag is
true. -/
def claimStrategy (c : Collab) (epoch : ℚ) (s : RunState) :
    Except Err ClaimTx × RunState :=
  if c.CLAIM_REWARDS then
    let s1 : RunState := { s with events := s.events ++ [Event.contractIsClaimable epoch] }
    match c.isClaimableRound epoch with
    | Except.error e => (Except.error e, s1)
    | Except.ok claimable =>
      if claimable then
        let s2 : RunState := { s1 with events := s1.events ++ [Event.contractClaim [epoch]] }
        (c.claimRewards [epoch], s2)
      else
        (Except.ok { status := 0, txGasFee := 0, transactionExeption := none }, s1)
  else
    (Except.ok { status := 0, txGasFee := 0, transactionExeption := none }, s)

/-- Modelled from the spec: the `formatUnit` collaborator
(`bot-lib/common/utils.module.js`) is not under `src/`.  Spec section 6 gives
its contract as `format(rawBaseUnitValue, decimals=18) -> decimalNumber`, i.e.
division of the raw base-unit value by `10^decimals`, with 18 as the default
when no unit argument is passed. -/
def specFormatUnit (value : ℚ) (unit : Option Nat) : ℚ :=
  value / 10 ^ unit.getD 18

/-- Recognizer for simulated-balance ledger events (reads or writes). -/
def Event.isBalance : Event → Bool
  | Event.balanceRead _ => true
  | Event.balanceWrite _ => true
  | _ => false

/-- Recognizer for history-store invocations. -/
def Event.isHistory : Event → Bool
  | Event.historyAppend _ => true
  | _ => false

/-- Direction swap used to compare the two bet strategies. -/
def flipDir : BetDir → BetDir
  | BetDir.down => BetDir.up
  | BetDir.up => BetDir.down

/-- Swap the direction tag of a history record. -/
def flipRecord (r : BetRecord) : BetRecord :=
  { r with bet := flipDir r.bet }

/-- Swap bet directions inside a trace event. -/
def flipEvent : Event → Event
  | Event.contractBetDown a e => Event.contractBetUp a e
  | Event.contractBetUp a e => Event.contractBetDown a e
  | Event.historyAppend rs => Event.historyAppend (rs.map flipRecord)
  | e => e

/-- The example receipt of the spec's numeric test property:
status 1, gasUsed 21000, effectiveGasPrice 5e9, no exception. -/
def sampleReceipt : TxReceipt :=
  { status := 1, gasUsed := 21000, effectiveGasPrice := 5000000000,
    transactionExeption := false }

/-- A concrete collaborator assembly used to instantiate the theorems on
closed inputs: the spec-modelled unit formatter, a fixed fiat/crypto rate of
300, a 6-dollar configured bet, both contract calls answering with
`sampleReceipt`, a claimable round, and an always-successful history store. -/
def sampleCollab : Collab :=
  { formatUnit := specFormatUnit
    parseFromUsdToCrypto := fun usd => usd / 300
    parseFeeFromCryptoToUsd := fun fee => fee * 300
    getBetAmount := 6
    SIMULATION_MODE := true
    CLAIM_REWARDS := true
    betDown := fun _ _ => Except.ok sampleReceipt
    betUp := fun _ _ => Except.ok sampleReceipt
    isClaimableRound := fun _ => Except.ok true
    claimRewards := fun _ =>
      Except.ok { status := 1, txGasFee := 3 / 1000, transactionExeption := some false }
    saveRoundInHistory := fun _ => Except.ok () }

/-- C1: on a receipt without a submission exception, `parseTransactionReceipt`
returns `betExecuted = (status == 1)` and `txGasFee` equal to the 18-decimal
re-formatting of the product of the unit-formatted `gasUsed` and the
unit-formatted `effectiveGasPrice`; the unit formatting is applied to both
operands before the multiplication, and nothing in the computation depends on
`status`, so for `status = 0` the fee is still computed from the gas fields
and is not forced to 0. -/
theorem parseTransactionReceipt_no_exception
    (formatUnit : ℚ → Option Nat → ℚ) (txReceipt : TxReceipt)
    (h : txReceipt.transactionExeption = false) :
    parseTransactionReceipt formatUnit txReceipt =
      { betExecuted := txReceipt.status == 1,
        txGasFee := formatUnit
          (formatUnit txReceipt.gasUsed none * formatUnit txReceipt.effectiveGasPrice none)
          (some 18) } := by
  simp [parseTransactionReceipt, h]

theorem parseTransactionReceipt_no_exception_witness :
    sampleReceipt.transactionExeption = false ∧
    parseTransactionReceipt specFormatUnit sampleReceipt =
      { betExecuted := sampleReceipt.status == 1,
        txGasFee := specFormatUnit
          (specFormatUnit sampleReceipt.gasUsed none *
            specFormatUnit sampleReceipt.effectiveGasPrice none) (some 18) } :=
  ⟨rfl, parseTransactionReceipt_no_exception specFormatUnit sampleReceipt rfl⟩

/-- C2: on a receipt with a submission exception, `parseTransactionReceipt`
returns `txGasFee = 0` and `betExecuted = (status == 1)`, and the result does
not depend on the gas fields (nor on the formatter, which is never called). -/
theorem parseTransactionReceipt_exception
    (formatUnit : ℚ → Option Nat → ℚ) (txReceipt : TxReceipt)
    (h : txReceipt.transactionExeption = true) :
    parseTransactionReceipt formatUnit txReceipt =
      { betExecuted := txReceipt.status == 1, txGasFee := 0 } ∧
    (∀ (fmt2 : ℚ → Option Nat → ℚ) (g p : ℚ),
      parseTransactionReceipt fmt2
        { txReceipt with gasUsed := g, effectiveGasPrice := p } =
        { betExecuted := txReceipt.status == 1, txGasFee := 0 }) := by
  constructor
  · simp [parseTransactionReceipt, h]
  · intro fmt2 g p
    simp [parseTransactionReceipt, h]

theorem parseTransactionReceipt_exception_witness :
    ({ sampleReceipt with transactionExeption := true } : TxReceipt).transactionExeption = true ∧
    parseTransactionReceipt specFormatUnit { sampleReceipt with transactionExeption := true } =
      { betExecuted := ({ sampleReceipt with transactionExeption := true } : TxReceipt).status == 1,
        txGasFee := 0 } :=
  ⟨rfl,
    (parseTransactionReceipt_exception specFormatUnit
      { sampleReceipt with transactionExeption := true } rfl).1⟩

/-- C8: `parseTransactionReceipt` is a total pure function of the receipt (its
embedding has no state, no `Except` and no `Option` in its type): on every
receipt of either documented shape it yields exactly the closed-form outcome
below, so it cannot fail or diverge on a well-formed receipt. -/
theorem parseTransactionReceipt_total
    (formatUnit : ℚ → Option Nat → ℚ) (txReceipt : TxReceipt) :
    parseTransactionReceipt formatUnit txReceipt =
      if txReceipt.transactionExeption then
        { betExecuted := txReceipt.status == 1, txGasFee := 0 }
      else
        { betExecuted := txReceipt.status == 1,
          txGasFee := formatUnit
            (formatUnit txReceipt.gasUsed none * formatUnit txReceipt.effectiveGasPrice none)
            (some 18) } := by
  by_cases h : txReceipt.transactionExeption <;> simp [parseTransactionReceipt, h]

/-- C9 (counterexample): on the example receipt, under the spec's unit
formatter (division by `10^decimals`, default 18), the computed fee is exactly
`21 / (2 * 10^41)` = 1.05e-40, which is far below `0.0000001050` = 1.05e-7:
the stated approximate value is off by 33 orders of magnitude (the fee is
smaller than 1.05e-7 by more than 1e-8, so no reasonable reading of
"approximately" holds). -/
theorem parseTransactionReceipt_example_cex :
    (parseTransactionReceipt specFormatUnit sampleReceipt).betExecuted = true ∧
    (parseTransactionReceipt specFormatUnit sampleReceipt).txGasFee = 21 / (2 * 10 ^ 41) ∧
    (parseTransactionReceipt specFormatUnit sampleReceipt).txGasFee <
      1050 / 10 ^ 10 - 1 / 10 ^ 8 := by
  refine ⟨rfl, ?_, ?_⟩ <;>
    · simp only [parseTransactionReceipt, sampleReceipt, specFormatUnit, Option.getD]
      norm_num

/-- C9 (amended): on the example receipt `status 1, gasUsed 21000,
effectiveGasPrice 5e9, no exception`, `parseTransactionReceipt` returns
`betExecuted = true` and `txGasFee = 21 / (2 * 10^41)` = 1.05e-40 exactly,
under the spec-modelled 18-decimal unit formatter applied to each operand and
again to their product. -/
theorem parseTransactionReceipt_example :
    parseTransactionReceipt specFormatUnit sampleReceipt =
      { betExecuted := true, txGasFee := 21 / (2 * 10 ^ 41) } := by
  simp only [parseTransactionReceipt, sampleReceipt, specFormatUnit, Option.getD,
    TxOutcome.mk.injEq]
  norm_num

/-- A variant of `sampleCollab` with simulation mode disabled. -/
def sampleCollabReal : Collab :=
  { sampleCollab with SIMULATION_MODE := false }

/-- C3: in simulation mode, a completed contract call makes either bet
strategy set the simulated balance to `B - A - F`, where `B` is the starting
balance, `A` the configured fiat bet amount and `F` the fiat-converted fee of
the normalized outcome, for any receipt (so regardless of `betExecuted`);
with simulation mode disabled, neither strategy reads or writes the simulated
balance ledger (the balance is unchanged and the trace acquires no ledger
events, on every path including rejections). -/
theorem betStrategy_simulation_balance (c : Collab) (epoch : ℚ) (s : RunState) :
    (c.SIMULATION_MODE = true →
      (∀ receipt, c.betDown (c.parseFromUsdToCrypto c.getBetAmount) epoch = Except.ok receipt →
        (betDownStrategy c epoch s).2.simulationBalance =
          s.simulationBalance - c.getBetAmount -
            c.parseFeeFromCryptoToUsd
              ((parseTransactionReceipt c.formatUnit receipt).txGasFee)) ∧
      (∀ receipt, c.betUp (c.parseFromUsdToCrypto c.getBetAmount) epoch = Except.ok receipt →
        (betUpStrategy c epoch s).2.simulationBalance =
          s.simulationBalance - c.getBetAmount -
            c.parseFeeFromCryptoToUsd
              ((parseTransactionReceipt c.formatUnit receipt).txGasFee))) ∧
    (c.SIMULATION_MODE = false →
      (betDownStrategy c epoch s).2.simulationBalance = s.simulationBalance ∧
      (betUpStrategy c epoch s).2.simulationBalance = s.simulationBalance ∧
      (betDownStrategy c epoch s).2.events.filter Event.isBalance =
        s.events.filter Event.isBalance ∧
      (betUpStrategy c epoch s).2.events.filter Event.isBalance =
        s.events.filter Event.isBalance) := by
  constructor
  · intro hsim
    refine ⟨fun receipt hok => ?_, fun receipt hok => ?_⟩
    · simp [betDownStrategy, hok, hsim]
    · simp [betUpStrategy, hok, hsim]
  · intro hsim
    refine ⟨?_, ?_, ?_, ?_⟩
    · cases hd : c.betDown (c.parseFromUsdToCrypto c.getBetAmount) epoch <;>
        simp [betDownStrategy, hd, hsim]
    · cases hu : c.betUp (c.parseFromUsdToCrypto c.getBetAmount) epoch <;>
        simp [betUpStrategy, hu, hsim]
    · cases hd : c.betDown (c.parseFromUsdToCrypto c.getBetAmount) epoch <;>
        simp [betDownStrategy, hd, hsim, Event.isBalance, List.filter_append]
    · cases hu : c.betUp (c.parseFromUsdToCrypto c.getBetAmount) epoch <;>
        simp [betUpStrategy, hu, hsim, Event.isBalance, List.filter_append]

theorem betStrategy_simulation_balance_witness :
    ((betDownStrategy sampleCollab 5 { simulationBalance := 100, events := [] }).2.simulationBalance =
      100 - sampleCollab.getBetAmount -
        sampleCollab.parseFeeFromCryptoToUsd
          ((parseTransactionReceipt sampleCollab.formatUnit sampleReceipt).txGasFee)) ∧
    ((betUpStrategy sampleCollab 5 { simulationBalance := 100, events := [] }).2.simulationBalance =
      100 - sampleCollab.getBetAmount -
        sampleCollab.parseFeeFromCryptoToUsd
          ((parseTransactionReceipt sampleCollab.formatUnit sampleReceipt).txGasFee)) ∧
    (betDownStrategy sampleCollabReal 5 { simulationBalance := 100, events := [] }).2.simulationBalance = 100 ∧
    (betUpStrategy sampleCollabReal 5 { simulationBalance := 100, events := [] }).2.simulationBalance = 100 :=
  ⟨((betStrategy_simulation_balance sampleCollab 5 ⟨100, []⟩).1 rfl).1 sampleReceipt rfl,
   ((betStrategy_simulation_balance sampleCollab 5 ⟨100, []⟩).1 rfl).2 sampleReceipt rfl,
   ((betStrategy_simulation_balance sampleCollabReal 5 ⟨100, []⟩).2 rfl).1,
   ((betStrategy_simulation_balance sampleCollabReal 5 ⟨100, []⟩).2 rfl).2.1⟩

/-- C4: whenever the contract call of either bet strategy yields a receipt,
the invocation's trace extends the incoming trace by exactly the contract
call, then (in simulation mode only) the ledger read and write, and finally
exactly one history-store invocation carrying a single-element record list;
the record holds the invoked direction tag, the unit-formatted epoch as
`round`, the crypto bet amount sent to the contract, and the normalized
outcome fields.  The history write is the last event — after the transaction
resolved and after any simulated-balance update — and nothing here depends on
`betExecuted`. -/
theorem betStrategy_history_once (c : Collab) (epoch : ℚ) (s : RunState)
    (receipt : TxReceipt) :
    (c.betDown (c.parseFromUsdToCrypto c.getBetAmount) epoch = Except.ok receipt →
      (betDownStrategy c epoch s).2.events =
        s.events ++ [Event.contractBetDown (c.parseFromUsdToCrypto c.getBetAmount) epoch] ++
          (if c.SIMULATION_MODE then
            [Event.balanceRead s.simulationBalance,
             Event.balanceWrite (s.simulationBalance - c.getBetAmount -
               c.parseFeeFromCryptoToUsd
                 ((parseTransactionReceipt c.formatUnit receipt).txGasFee))]
          else []) ++
          [Event.historyAppend
            [{ round := c.formatUnit epoch none,
               betAmount := c.parseFromUsdToCrypto c.getBetAmount,
               bet := BET_DOWN,
               betExecuted := (parseTransactionReceipt c.formatUnit receipt).betExecuted,
               txGasFee := (parseTransactionReceipt c.formatUnit receipt).txGasFee }]]) ∧
    (c.betUp (c.parseFromUsdToCrypto c.getBetAmount) epoch = Except.ok receipt →
      (betUpStrategy c epoch s).2.events =
        s.events ++ [Event.contractBetUp (c.parseFromUsdToCrypto c.getBetAmount) epoch] ++
          (if c.SIMULATION_MODE then
            [Event.balanceRead s.simulationBalance,
             Event.balanceWrite (s.simulationBalance - c.getBetAmount -
               c.parseFeeFromCryptoToUsd
                 ((parseTransactionReceipt c.formatUnit receipt).txGasFee))]
          else []) ++
          [Event.historyAppend
            [{ round := c.formatUnit epoch none,
               betAmount := c.parseFromUsdToCrypto c.getBetAmount,
               bet := BET_UP,
               betExecuted := (parseTransactionReceipt c.formatUnit receipt).betExecuted,
               txGasFee := (parseTransactionReceipt c.formatUnit receipt).txGasFee }]]) := by
  constructor
  · intro hok
    by_cases hsim : c.SIMULATION_MODE <;> simp [betDownStrategy, hok, hsim]
  · intro hok
    by_cases hsim : c.SIMULATION_MODE <;> simp [betUpStrategy, hok, hsim]

theorem betStrategy_history_once_witness :
    (betDownStrategy sampleCollab 5 { simulationBalance := 100, events := [] }).2.events =
      [] ++ [Event.contractBetDown (sampleCollab.parseFromUsdToCrypto sampleCollab.getBetAmount) 5] ++
        (if sampleCollab.SIMULATION_MODE then
          [Event.balanceRead 100,
           Event.balanceWrite (100 - sampleCollab.getBetAmount -
             sampleCollab.parseFeeFromCryptoToUsd
               ((parseTransactionReceipt sampleCollab.formatUnit sampleReceipt).txGasFee))]
        else []) ++
        [Event.historyAppend
          [{ round := sampleCollab.formatUnit 5 none,
             betAmount := sampleCollab.parseFromUsdToCrypto sampleCollab.getBetAmount,
             bet := BET_DOWN,
             betExecuted := (parseTransactionReceipt sampleCollab.formatUnit sampleReceipt).betExecuted,
             txGasFee := (parseTransactionReceipt sampleCollab.formatUnit sampleReceipt).txGasFee }]] :=
  (betStrategy_history_once sampleCollab 5 ⟨100, []⟩ sampleReceipt).1 rfl

/-- A variant of `sampleCollab` with automatic claiming disabled. -/
def sampleCollabNoClaim : Collab :=
  { sampleCollab with CLAIM_REWARDS := false }

/-- A variant of `sampleCollab` whose round is not claimable. -/
def sampleCollabNotClaimable : Collab :=
  { sampleCollab with isClaimableRound := fun _ => Except.ok false }

/-- C5: with `CLAIM_REWARDS` false, `claimStrategy` returns exactly the
sentinel and leaves the state untouched — in particular the trace acquires no
`contractIsClaimable` event, so the claimability collaborator is never invoked
(the conjunction short-circuits); with the flag true but the round not
claimable, the same sentinel is returned and the trace acquires only the
claimability check, never a claim invocation. -/
theorem claimStrategy_skip (c : Collab) (epoch : ℚ) (s : RunState) :
    (c.CLAIM_REWARDS = false →
      claimStrategy c epoch s =
        (Except.ok { status := 0, txGasFee := 0, transactionExeption := none }, s)) ∧
    (c.CLAIM_REWARDS = true → c.isClaimableRound epoch = Except.ok false →
      claimStrategy c epoch s =
        (Except.ok { status := 0, txGasFee := 0, transactionExeption := none },
         { s with events := s.events ++ [Event.contractIsClaimable epoch] })) := by
  constructor
  · intro h
    simp [claimStrategy, h]
  · intro h hclaim
    simp [claimStrategy, h, hclaim]

theorem claimStrategy_skip_witness :
    claimStrategy sampleCollabNoClaim 5 { simulationBalance := 100, events := [] } =
      (Except.ok { status := 0, txGasFee := 0, transactionExeption := none },
       { simulationBalance := 100, events := [] }) ∧
    claimStrategy sampleCollabNotClaimable 5 { simulationBalance := 100, events := [] } =
      (Except.ok { status := 0, txGasFee := 0, transactionExeption := none },
       { simulationBalance := 100, events := [Event.contractIsClaimable 5] }) :=
  ⟨(claimStrategy_skip sampleCollabNoClaim 5 ⟨100, []⟩).1 rfl,
   (claimStrategy_skip sampleCollabNotClaimable 5 ⟨100, []⟩).2 rfl rfl⟩

/-- C6: with `CLAIM_REWARDS` true and a claimable round, `claimStrategy`
invokes the claim collaborator exactly once (a single `contractClaim` event),
with the singleton list `[epoch]`, and returns the collaborator's result
unmodified — the whole `Except`, with no re-normalization and no field
changes. -/
theorem claimStrategy_claim (c : Collab) (epoch : ℚ) (s : RunState)
    (hflag : c.CLAIM_REWARDS = true)
    (hclaimable : c.isClaimableRound epoch = Except.ok true) :
    claimStrategy c epoch s =
      (c.claimRewards [epoch],
       { s with events := s.events ++
          [Event.contractIsClaimable epoch, Event.contractClaim [epoch]] }) := by
  simp [claimStrategy, hflag, hclaimable]

theorem claimStrategy_claim_witness :
    claimStrategy sampleCollab 5 { simulationBalance := 100, events := [] } =
      (Except.ok { status := 1, txGasFee := 3 / 1000, transactionExeption := some false },
       { simulationBalance := 100,
         events := [Event.contractIsClaimable 5, Event.contractClaim [5]] }) := by
  rw [claimStrategy_claim sampleCollab 5 ⟨100, []⟩ rfl rfl]
  rfl

/-- A variant of `sampleCollab` whose two bet-placement calls reject. -/
def sampleCollabBetRejected : Collab :=
  { sampleCollab with
    betDown := fun _ _ => Except.error 7
    betUp := fun _ _ => Except.error 7 }

/-- A variant of `sampleCollab` whose history store rejects. -/
def sampleCollabHistoryRejected : Collab :=
  { sampleCollab with saveRoundInHistory := fun _ => Except.error 9 }

/-- A variant of `sampleCollab` whose claimability check rejects. -/
def sampleCollabClaimabilityRejected : Collab :=
  { sampleCollab with isClaimableRound := fun _ => Except.error 3 }

/-- C7: collaborator rejections propagate uncaught, with no retry and no
swallowing.  If the bet-placement call rejects, the strategy halts with that
error and the state carries only the one contract-call event: the simulated
balance is untouched and no history record is written.  If the contract call
succeeds, the returned value is exactly the history store's verdict mapped
over the outcome boolean, so a history rejection propagates as the strategy's
error.  In `claimStrategy`, a claimability rejection propagates after the one
claimability event, and on the claim path the claim collaborator's `Except` is
returned as is, so its rejection propagates too. -/
theorem strategy_error_propagation (c : Collab) (epoch : ℚ) (s : RunState) :
    (∀ e, c.betDown (c.parseFromUsdToCrypto c.getBetAmount) epoch = Except.error e →
      betDownStrategy c epoch s =
        (Except.error e,
         { s with events := s.events ++
            [Event.contractBetDown (c.parseFromUsdToCrypto c.getBetAmount) epoch] })) ∧
    (∀ e, c.betUp (c.parseFromUsdToCrypto c.getBetAmount) epoch = Except.error e →
      betUpStrategy c epoch s =
        (Except.error e,
         { s with events := s.events ++
            [Event.contractBetUp (c.parseFromUsdToCrypto c.getBetAmount) epoch] })) ∧
    (∀ receipt, c.betDown (c.parseFromUsdToCrypto c.getBetAmount) epoch = Except.ok receipt →
      (betDownStrategy c epoch s).1 =
        (c.saveRoundInHistory
          [{ round := c.formatUnit epoch none,
             betAmount := c.parseFromUsdToCrypto c.getBetAmount,
             bet := BET_DOWN,
             betExecuted := (parseTransactionReceipt c.formatUnit receipt).betExecuted,
             txGasFee := (parseTransactionReceipt c.formatUnit receipt).txGasFee }]).map
          (fun _ => (parseTransactionReceipt c.formatUnit receipt).betExecuted)) ∧
    (∀ receipt, c.betUp (c.parseFromUsdToCrypto c.getBetAmount) epoch = Except.ok receipt →
      (betUpStrategy c epoch s).1 =
        (c.saveRoundInHistory
          [{ round := c.formatUnit epoch none,
             betAmount := c.parseFromUsdToCrypto c.getBetAmount,
             bet := BET_UP,
             betExecuted := (parseTransactionReceipt c.formatUnit receipt).betExecuted,
             txGasFee := (parseTransactionReceipt c.formatUnit receipt).txGasFee }]).map
          (fun _ => (parseTransactionReceipt c.formatUnit receipt).betExecuted)) ∧
    (∀ e, c.CLAIM_REWARDS = true → c.isClaimableRound epoch = Except.error e →
      claimStrategy c epoch s =
        (Except.error e,
         { s with events := s.events ++ [Event.contractIsClaimable epoch] })) ∧
    (c.CLAIM_REWARDS = true → c.isClaimableRound epoch = Except.ok true →
      (claimStrategy c epoch s).1 = c.claimRewards [epoch]) := by
  refine ⟨fun e he => ?_, fun e he => ?_, fun receipt hok => ?_, fun receipt hok => ?_,
    fun e hflag he => ?_, fun hflag hclaimable => ?_⟩
  · simp [betDownStrategy, he]
  · simp [betUpStrategy, he]
  · by_cases hsim : c.SIMULATION_MODE <;> simp [betDownStrategy, hok, hsim]
  · by_cases hsim : c.SIMULATION_MODE <;> simp [betUpStrategy, hok, hsim]
  · simp [claimStrategy, hflag, he]
  · simp [claimStrategy, hflag, hclaimable]

theorem strategy_error_propagation_witness :
    betDownStrategy sampleCollabBetRejected 5 { simulationBalance := 100, events := [] } =
      (Except.error 7,
       { simulationBalance := 100,
         events := [Event.contractBetDown
           (sampleCollabBetRejected.parseFromUsdToCrypto sampleCollabBetRejected.getBetAmount) 5] }) ∧
    betUpStrategy sampleCollabBetRejected 5 { simulationBalance := 100, events := [] } =
      (Except.error 7,
       { simulationBalance := 100,
         events := [Event.contractBetUp
           (sampleCollabBetRejected.parseFromUsdToCrypto sampleCollabBetRejected.getBetAmount) 5] }) ∧
    (betDownStrategy sampleCollabHistoryRejected 5 { simulationBalance := 100, events := [] }).1 =
      Except.error 9 ∧
    claimStrategy sampleCollabClaimabilityRejected 5 { simulationBalance := 100, events := [] } =
      (Except.error 3,
       { simulationBalance := 100, events := [Event.contractIsClaimable 5] }) ∧
    (claimStrategy sampleCollab 5 { simulationBalance := 100, events := [] }).1 =
      sampleCollab.claimRewards [5] := by
  refine ⟨?_, ?_, ?_, ?_, ?_⟩
  · have h := (strategy_error_propagation sampleCollabBetRejected 5 ⟨100, []⟩).1 7 rfl
    simpa using h
  · have h := (strategy_error_propagation sampleCollabBetRejected 5 ⟨100, []⟩).2.1 7 rfl
    simpa using h
  · have h := (strategy_error_propagation sampleCollabHistoryRejected 5 ⟨100, []⟩).2.2.1
      sampleReceipt rfl
    simpa using h
  · have h := (strategy_error_propagation sampleCollabClaimabilityRejected 5 ⟨100, []⟩).2.2.2.2.1
      3 rfl rfl
    simpa using h
  · exact (strategy_error_propagation sampleCollab 5 ⟨100, []⟩).2.2.2.2.2 rfl rfl

/-- C10: the two bet strategies are equivalent modulo direction.  For the same
collaborators, epoch and starting balance, if the two contract calls answer
alike at the amount actually sent and the history store accepts the writes,
then `betUpStrategy` returns the same value as `betDownStrategy`, leaves the
same simulated balance, and produces the `betDownStrategy` trace with
`contractBetDown` renamed to `contractBetUp` and the record's direction tag
flipped from `BET_DOWN` to `BET_UP` — everything else (round, bet amount,
outcome fields, ledger events, ordering) identical. -/
theorem betStrategies_equivalent (c : Collab) (epoch : ℚ) (bal : ℚ)
    (hcall : c.betUp (c.parseFromUsdToCrypto c.getBetAmount) epoch =
      c.betDown (c.parseFromUsdToCrypto c.getBetAmount) epoch)
    (hhist : ∀ records, c.saveRoundInHistory records = Except.ok ()) :
    (betUpStrategy c epoch { simulationBalance := bal, events := [] }).1 =
      (betDownStrategy c epoch { simulationBalance := bal, events := [] }).1 ∧
    (betUpStrategy c epoch { simulationBalance := bal, events := [] }).2.simulationBalance =
      (betDownStrategy c epoch { simulationBalance := bal, events := [] }).2.simulationBalance ∧
    (betUpStrategy c epoch { simulationBalance := bal, events := [] }).2.events =
      ((betDownStrategy c epoch { simulationBalance := bal, events := [] }).2.events).map
        flipEvent := by
  cases hd : c.betDown (c.parseFromUsdToCrypto c.getBetAmount) epoch with
  | error e =>
    rw [hd] at hcall
    refine ⟨?_, ?_, ?_⟩ <;>
      simp [betUpStrategy, betDownStrategy, hcall, hd, flipEvent]
  | ok receipt =>
    rw [hd] at hcall
    by_cases hsim : c.SIMULATION_MODE <;>
      refine ⟨?_, ?_, ?_⟩ <;>
        simp [betUpStrategy, betDownStrategy, hcall, hd, hhist, hsim,
          flipEvent, flipRecord, flipDir, BET_DOWN, BET_UP]

theorem betStrategies_equivalent_witness :
    (betUpStrategy sampleCollab 5 { simulationBalance := 100, events := [] }).1 =
      (betDownStrategy sampleCollab 5 { simulationBalance := 100, events := [] }).1 ∧
    (betUpStrategy sampleCollab 5 { simulationBalance := 100, events := [] }).2.simulationBalance =
      (betDownStrategy sampleCollab 5 { simulationBalance := 100, events := [] }).2.simulationBalance ∧
    (betUpStrategy sampleCollab 5 { simulationBalance := 100, events := [] }).2.events =
      ((betDownStrategy sampleCollab 5 { simulationBalance := 100, events := [] }).2.events).map
        flipEvent :=
  betStrategies_equivalent sampleCollab 5 100 rfl (fun _ => rfl)
